import Mathlib

/-!
Shallow embedding of the Cube-OS radiation-counter-api driver core:
the command catalog, the response parsers, the device-controller
operations of `radiation_counter.rs`, and the timing/bus event traces
each operation performs.  Bytes are modelled as `Nat` (bus bytes are
always < 256), `f64` telemetry arithmetic is modelled exactly over `ℚ`,
and the fallible Rust functions return `Except CounterError`.
-/

namespace RadCounter

/-- An i2c command frame: one opcode byte plus a payload
(`rust_i2c::Command`). -/
structure Command where
  cmd : Nat
  data : List Nat
deriving DecidableEq, Repr

/-- Error source strings used by `CounterError::parsing_failure`. -/
def lastErrorSource : String := "Last Error"

def commsWatchdogSource : String := "Comms Watchdog Period"

def resetTelemetrySource : String := "Reset Telemetry"

def adcResultSource : String := "ADC Result"

/-- Rust `CounterError` from `lib.rs`: the driver's error taxonomy.
`i2cError` carries the underlying io error kind (abstracted to `Nat`). -/
inductive CounterError where
  | none
  | genericError
  | i2cError (kind : Nat)
  | parsingFailure (source : String)
  | commandFailure (command : String)
deriving DecidableEq, Repr

/-- Rust `ErrorCode` from `commands/last_error.rs`. -/
inductive ErrorCode where
  | none
  | unknownCommand
  | resetOccurred
  | commandError
  | unknownError
deriving DecidableEq, Repr

/-- Rust `ErrorCode::from_u8`: decode the last-error byte. -/
def ErrorCode.from_u8 (value : Nat) : ErrorCode :=
  match value with
  | 0x00 => ErrorCode.none
  | 0x01 => ErrorCode.unknownCommand
  | 0x02 => ErrorCode.resetOccurred
  | 0x03 => ErrorCode.commandError
  | _ => ErrorCode.unknownError

namespace last_error

/-- Rust `last_error::parse`: requires a 2-byte response, decodes byte 1. -/
def parse (data : List Nat) : Except CounterError ErrorCode :=
  if data.length = 2 then
    Except.ok (ErrorCode.from_u8 (data.getD 1 0))
  else
    Except.error (CounterError.parsingFailure lastErrorSource)

/-- Rust `last_error::command`: opcode 0x03, payload [0x00], declared
response length 4 (as written in the source). -/
def command : Command × Nat :=
  (⟨0x03, [0x00]⟩, 4)

end last_error

namespace set_comms_watchdog_period

/-- Rust `set_comms_watchdog_period::command`: opcode 0x21, payload
exactly [period], no range validation. -/
def command (period : Nat) : Command :=
  ⟨0x21, [period]⟩

end set_comms_watchdog_period

namespace get_comms_watchdog_period

/-- Rust `get_comms_watchdog_period::parse`. -/
def parse (data : List Nat) : Except CounterError Nat :=
  if data.length = 2 then
    Except.ok (data.getD 1 0)
  else
    Except.error (CounterError.parsingFailure commsWatchdogSource)

/-- Rust `get_comms_watchdog_period::command`: opcode 0x20, payload [0x00],
declared response length 2. -/
def command : Command × Nat :=
  (⟨0x20, [0x00]⟩, 2)

end get_comms_watchdog_period

namespace manual_reset

/-- Rust `manual_reset::command`: opcode 0x80, payload [0x00], write-only. -/
def command : Command :=
  ⟨0x80, [0x00]⟩

end manual_reset

namespace reset_comms_watchdog

/-- Rust `reset_comms_watchdog::command`: opcode 0x22, payload [0x00]. -/
def command : Command :=
  ⟨0x22, [0x00]⟩

end reset_comms_watchdog

namespace ResetTelemetry

/-- Rust `telemetry::reset::Type` (generated by `make_reset_telemetry!`). -/
inductive Typ where
  | brownOut
  | automaticSoftware
  | manual
  | watchdog
deriving DecidableEq, Repr

/-- Rust `telemetry::reset::command`: per-kind opcode 0x31..0x34, payload
[0x00], declared response length 4 (as written in the macro). -/
def command (reset_type : Typ) : Command × Nat :=
  (⟨match reset_type with
    | Typ.brownOut => 0x31
    | Typ.automaticSoftware => 0x32
    | Typ.manual => 0x33
    | Typ.watchdog => 0x34,
    [0x00]⟩, 4)

/-- Rust `telemetry::reset::parse`: requires a 2-byte response, returns byte 1. -/
def parse (data : List Nat) : Except CounterError Nat :=
  if data.length = 2 then
    Except.ok (data.getD 1 0)
  else
    Except.error (CounterError.parsingFailure resetTelemetrySource)

end ResetTelemetry

namespace Telemetry

/-- Rust `telemetry::counter::Type` (generated by `make_telemetry!`):
Voltage, Current, Power. -/
inductive Typ where
  | voltage
  | current
  | power
deriving DecidableEq, Repr

/-- Rust `TELEM_CMD` in `telemetry/counter.rs`. -/
def TELEM_CMD : Nat := 0x10

/-- Rust `telemetry::counter::command` (generated by `make_telemetry!`):
shared opcode 0x10, per-channel 2-byte subaddress payload, declared
response length 2. -/
def command (telem_type : Typ) : Command × Nat :=
  (⟨TELEM_CMD,
    match telem_type with
    | Typ.voltage => [0xE1, 0x10]
    | Typ.current => [0xE1, 0x14]
    | Typ.power => [0xE1, 0x34]⟩, 2)

/-- Modelled from the spec: `get_adc_result` is commented out in
`telemetry/lib.rs` though `telemetry::counter::parse` (its caller in
`radiation_counter.rs`) requires it.  Per the spec's Telemetry Decoder
(§4.3) and the commented source, the first two response bytes form a
big-endian unsigned 16-bit sample; shorter input is a parsing failure. -/
def get_adc_result (data : List Nat) : Except CounterError ℚ :=
  if data.length < 2 then
    Except.error (CounterError.parsingFailure adcResultSource)
  else
    Except.ok ((data.getD 0 0 : ℚ) * 256 + (data.getD 1 0 : ℚ))

/-- Per-channel scale coefficient as stated by the spec's round-trip
property, for comparison against the embedded decoder. -/
def scale : Typ → ℚ
  | Typ.voltage => 0.0322537
  | Typ.current => 0.978131613
  | Typ.power => 0.979728933

/-- Per-channel offset coefficient as stated by the spec's round-trip
property, for comparison against the embedded decoder. -/
def offset : Typ → ℚ
  | Typ.voltage => -0.051236678
  | Typ.current => 16.10860291
  | Typ.power => 3.627460224

/-- Modelled from the spec: `telemetry::counter::parse` is commented
out in the `make_telemetry!` macro though `get_telemetry` in
`radiation_counter.rs` calls it.  Per the spec (§4.3) and the commented
macro body, it decodes the ADC sample then applies the channel's
per-variant linear closure from `telemetry/counter.rs` (`f64`
arithmetic modelled exactly over `ℚ`). -/
def parse (data : List Nat) (telem_type : Typ) : Except CounterError ℚ :=
  (get_adc_result data).map (fun d =>
    match telem_type with
    | Typ.voltage => 0.0322537 * d - 0.051236678
    | Typ.current => 0.978131613 * d + 16.10860291
    | Typ.power => 0.979728933 * d + 3.627460224)

end Telemetry

/-- Outcome of a bus transaction as seen by the driver: the transport
either returns raw bytes or an io error (its kind abstracted to `Nat`).
The bus itself is an external collaborator, so each operation is
parameterised by this outcome. -/
inductive BusResult where
  | ok (data : List Nat)
  | ioErr (kind : Nat)
deriving DecidableEq, Repr

/-- One observable action of an operation, in program order: a
`thread::sleep` (milliseconds), a `connection.write`, or a
`connection.transfer` with its declared receive length and timeout. -/
inductive Event where
  | sleep (ms : Nat)
  | write (c : Command)
  | transfer (c : Command) (rxLen : Nat) (timeoutMs : Nat)
deriving DecidableEq, Repr

/-- Whether an event touches the bus. -/
def Event.isBus : Event → Bool
  | Event.write _ => true
  | Event.transfer _ _ _ => true
  | _ => false

/-- True when every bus event in the trace is preceded by a 60ms
`INTER_COMMAND_DELAY` sleep. -/
def delayObserved : List Event → Bool
  | [] => true
  | Event.sleep 60 :: _ => true
  | e :: rest => if e.isBus then false else delayObserved rest

/-- Rust `INTER_COMMAND_DELAY` (milliseconds) from `radiation_counter.rs`. -/
def INTER_COMMAND_DELAY : Nat := 60

/-- Modelled from the spec: the Counter Aggregator of §4.4
(`current_sum`, `previous_sum`, `window_start_timestamp`) is absent
from `src/` — `objects.rs` only carries instantaneous readings and
`get_radiation_count` returns a single byte. -/
structure Aggregator where
  current_sum : List Nat
  previous_sum : List Nat
  window_start_timestamp : Int
deriving DecidableEq, Repr

/-- Canonical window length of the spec (30 time-units). -/
def WINDOW_LENGTH : Int := 30

/-- Modelled from the spec: `record(reading)` adds the raw count of
each channel into `current_sum`, never failing and with no range
validation. -/
def Aggregator.record (a : Aggregator) (reading : List Nat) : Aggregator :=
  { a with current_sum := List.zipWith (· + ·) a.current_sum reading }

/-- Modelled from the spec: `swap_window(now)` sets
`window_start_timestamp = now - 30`, copies `current_sum` into
`previous_sum` and resets `current_sum` to all zero. -/
def Aggregator.swap_window (a : Aggregator) (now : Int) : Aggregator :=
  { current_sum := List.replicate a.current_sum.length 0
    previous_sum := a.current_sum
    window_start_timestamp := now - WINDOW_LENGTH }

/-- An aggregator with `n` channels and no accumulated counts. -/
def Aggregator.init (n : Nat) : Aggregator :=
  ⟨List.replicate n 0, List.replicate n 0, 0⟩

/-- Fold a sequence of recorded readings into an aggregator. -/
def Aggregator.recordAll (a : Aggregator) (rs : List (List Nat)) : Aggregator :=
  rs.foldl Aggregator.record a

/-- Element-wise sum of a sequence of `n`-channel readings. -/
def sumReadings (n : Nat) (rs : List (List Nat)) : List Nat :=
  rs.foldl (List.zipWith (· + ·)) (List.replicate n 0)

/-- State of the Device Controller: the Rust `RadiationCounter` struct
holds the connection and the cached `power_status`; the aggregator
component is modelled from the spec (§2 says the Device Controller owns
the aggregator's mutable state), since it is absent from `src/`. -/
structure RadiationCounter where
  power_status : Bool
  agg : Aggregator
deriving DecidableEq, Repr

/-- Rust `RadiationCounter::new`: power status starts out `true`; the
spec-modelled aggregator starts empty with `n` channels. -/
def RadiationCounter.new (n : Nat) : RadiationCounter :=
  ⟨true, Aggregator.init n⟩

namespace Ops

/-- Map a transport error through `From<std::io::Error> for
CounterError` (the `?` operator in the Rust operations). -/
def busErr (kind : Nat) : CounterError := CounterError.i2cError kind

/-- Rust `get_last_error`: transfers the last-error command and parses
the response; a `&self` method, so the state is returned unchanged. -/
def get_last_error (st : RadiationCounter) (bus : BusResult) :
    Except CounterError ErrorCode × RadiationCounter :=
  (match bus with
   | BusResult.ok data => last_error.parse data
   | BusResult.ioErr k => Except.error (busErr k), st)

/-- Rust `manual_reset`: writes the reset command; `&self`. -/
def manual_reset (st : RadiationCounter) (wr : Except Nat Unit) :
    Except CounterError Unit × RadiationCounter :=
  (match wr with
   | Except.ok _ => Except.ok ()
   | Except.error k => Except.error (busErr k), st)

/-- Rust `reset_comms_watchdog`: writes the watchdog-reset command; `&self`. -/
def reset_comms_watchdog (st : RadiationCounter) (wr : Except Nat Unit) :
    Except CounterError Unit × RadiationCounter :=
  (match wr with
   | Except.ok _ => Except.ok ()
   | Except.error k => Except.error (busErr k), st)

/-- Rust `get_telemetry`: transfers the telemetry command and parses; `&self`. -/
def get_telemetry (st : RadiationCounter) (telem_type : Telemetry.Typ)
    (bus : BusResult) : Except CounterError ℚ × RadiationCounter :=
  (match bus with
   | BusResult.ok data => Telemetry.parse data telem_type
   | BusResult.ioErr k => Except.error (busErr k), st)

/-- Rust `get_reset_telemetry`: transfers the reset-telemetry command
and parses; `&self`. -/
def get_reset_telemetry (st : RadiationCounter) (_ : ResetTelemetry.Typ)
    (bus : BusResult) : Except CounterError Nat × RadiationCounter :=
  (match bus with
   | BusResult.ok data => ResetTelemetry.parse data
   | BusResult.ioErr k => Except.error (busErr k), st)

/-- Rust `set_comms_watchdog_period`: writes the period command; `&self`. -/
def set_comms_watchdog_period (st : RadiationCounter) (_ : Nat)
    (wr : Except Nat Unit) : Except CounterError Unit × RadiationCounter :=
  (match wr with
   | Except.ok _ => Except.ok ()
   | Except.error k => Except.error (busErr k), st)

/-- Rust `get_comms_watchdog_period`: transfers and parses; `&self`. -/
def get_comms_watchdog_period (st : RadiationCounter) (bus : BusResult) :
    Except CounterError Nat × RadiationCounter :=
  (match bus with
   | BusResult.ok data => get_comms_watchdog_period.parse data
   | BusResult.ioErr k => Except.error (busErr k), st)

/-- Rust `set_power_status`: stores the flag in the driver-local cache
and returns `Ok(())` (no bus transaction; the power API call is
commented out in the source). -/
def set_power_status (st : RadiationCounter) (status : Bool) :
    Except CounterError Unit × RadiationCounter :=
  (Except.ok (), { st with power_status := status })

/-- Rust `get_power_status`: returns the cached flag; `&self`, no bus
transaction. -/
def get_power_status (st : RadiationCounter) : Except CounterError Bool :=
  Except.ok st.power_status

/-- Rust `raw_command`: writes an arbitrary command frame; `&self`. -/
def raw_command (st : RadiationCounter) (_ : Nat) (_ : List Nat)
    (wr : Except Nat Unit) : Except CounterError Unit × RadiationCounter :=
  (match wr with
   | Except.ok _ => Except.ok ()
   | Except.error k => Except.error (busErr k), st)

/-- The count-request frame built inside `get_radiation_count`:
opcode 0x01, empty payload. -/
def count_request : Command := ⟨0x01, []⟩

/-- Outcome of `get_radiation_count`: `ok now byte` on success, a
driver error when the transfer fails, or `panic` when the successful
response is empty and the unguarded `count[0]` indexing goes out of
bounds. -/
inductive CountOutcome where
  | ok (now : Nat) (b : Nat)
  | err (e : CounterError)
  | panic
deriving DecidableEq, Repr

/-- Rust `get_radiation_count`: transfers the 0x01 request with
declared length 2 and, on transport success, returns `(now, count[0])`
with no length validation of the response; `&self`, so the state is
unchanged (nothing is fed into any aggregator in the source). -/
def get_radiation_count (st : RadiationCounter) (now : Nat)
    (bus : BusResult) : CountOutcome × RadiationCounter :=
  (match bus with
   | BusResult.ok [] => CountOutcome.panic
   | BusResult.ok (b :: _) => CountOutcome.ok now b
   | BusResult.ioErr k => CountOutcome.err (busErr k), st)

end Ops

namespace Trace

/-- Event trace of `get_last_error`: sleep, then transfer with the
declared length and a 3ms timeout. -/
def get_last_error : List Event :=
  [Event.sleep 60, Event.transfer last_error.command.1 last_error.command.2 3]

/-- Event trace of `manual_reset`. -/
def manual_reset : List Event :=
  [Event.sleep 60, Event.write RadCounter.manual_reset.command]

/-- Event trace of `reset_comms_watchdog`. -/
def reset_comms_watchdog : List Event :=
  [Event.sleep 60, Event.write RadCounter.reset_comms_watchdog.command]

/-- Event trace of `get_telemetry`: 20ms timeout. -/
def get_telemetry (telem_type : Telemetry.Typ) : List Event :=
  [Event.sleep 60,
   Event.transfer (Telemetry.command telem_type).1
     (Telemetry.command telem_type).2 20]

/-- Event trace of `get_reset_telemetry`: 3ms timeout. -/
def get_reset_telemetry (reset_type : ResetTelemetry.Typ) : List Event :=
  [Event.sleep 60,
   Event.transfer (ResetTelemetry.command reset_type).1
     (ResetTelemetry.command reset_type).2 3]

/-- Event trace of `set_comms_watchdog_period`. -/
def set_comms_watchdog_period (period : Nat) : List Event :=
  [Event.sleep 60,
   Event.write (RadCounter.set_comms_watchdog_period.command period)]

/-- Event trace of `get_comms_watchdog_period`: 2ms timeout. -/
def get_comms_watchdog_period : List Event :=
  [Event.sleep 60,
   Event.transfer RadCounter.get_comms_watchdog_period.command.1
     RadCounter.get_comms_watchdog_period.command.2 2]

/-- Event trace of `raw_command`. -/
def raw_command (cmd : Nat) (data : List Nat) : List Event :=
  [Event.sleep 60, Event.write ⟨cmd, data⟩]

/-- Event trace of `get_radiation_count`: the source performs the
transfer with no preceding sleep. -/
def get_radiation_count : List Event :=
  [Event.transfer Ops.count_request 2 3]

/-- Event trace of `set_power_status`: no sleep, no bus event. -/
def set_power_status : List Event := []

/-- Event trace of `get_power_status`: no sleep, no bus event. -/
def get_power_status : List Event := []

end Trace

/-! ## Helper lemmas -/

/-- Folding `record` over a list of readings folds the element-wise sum
into `current_sum`. -/
theorem Aggregator.recordAll_current_sum (a : Aggregator)
    (rs : List (List Nat)) :
    (a.recordAll rs).current_sum =
      rs.foldl (List.zipWith (· + ·)) a.current_sum := by
  induction rs generalizing a with
  | nil => rfl
  | cons r rest ih =>
    simpa [Aggregator.recordAll, Aggregator.record] using ih (a.record r)

/-- Recording readings never touches `previous_sum`. -/
theorem Aggregator.recordAll_previous_sum (a : Aggregator)
    (rs : List (List Nat)) :
    (a.recordAll rs).previous_sum = a.previous_sum := by
  induction rs generalizing a with
  | nil => rfl
  | cons r rest ih =>
    simpa [Aggregator.recordAll, Aggregator.record] using ih (a.record r)

/-! ## Claim theorems -/

/-- Claim C1: for every sequence of `record` calls, the pre-swap
`current_sum` equals the element-wise sum of all recorded readings;
after `swap_window now`, `previous_sum` equals that pre-swap sum,
`current_sum` is all-zero in every channel, and
`window_start_timestamp = now - 30`; and no device-controller operation
other than `get_radiation_count` and `swap_window` changes the
aggregator component of the state. -/
theorem claim_c1_aggregator_window (n : Nat) (rs : List (List Nat))
    (now : Int) (st : RadiationCounter) (bus : BusResult)
    (wr : Except Nat Unit) (tt : Telemetry.Typ) (rt : ResetTelemetry.Typ)
    (p c : Nat) (d : List Nat) (s : Bool) :
    ((Aggregator.init n).recordAll rs).current_sum = sumReadings n rs ∧
    ((((Aggregator.init n).recordAll rs).swap_window now).previous_sum =
      ((Aggregator.init n).recordAll rs).current_sum) ∧
    ((((Aggregator.init n).recordAll rs).swap_window now).current_sum.all
      (· == 0) = true) ∧
    ((((Aggregator.init n).recordAll rs).swap_window
      now).window_start_timestamp = now - 30) ∧
    (Ops.get_last_error st bus).2.agg = st.agg ∧
    (Ops.manual_reset st wr).2.agg = st.agg ∧
    (Ops.reset_comms_watchdog st wr).2.agg = st.agg ∧
    (Ops.get_telemetry st tt bus).2.agg = st.agg ∧
    (Ops.get_reset_telemetry st rt bus).2.agg = st.agg ∧
    (Ops.set_comms_watchdog_period st p wr).2.agg = st.agg ∧
    (Ops.get_comms_watchdog_period st bus).2.agg = st.agg ∧
    (Ops.set_power_status st s).2.agg = st.agg ∧
    (Ops.raw_command st c d wr).2.agg = st.agg := by
  refine ⟨?_, rfl, ?_, rfl, rfl, rfl, rfl, rfl, rfl, rfl, rfl, rfl, rfl⟩
  · simpa [Aggregator.init, sumReadings] using
      Aggregator.recordAll_current_sum (Aggregator.init n) rs
  · simp [Aggregator.swap_window]

/-- Claim C2: the catalog length that `last_error::command` declares
(and hands to the bus transfer) is 4, not the 2 bytes its parser
accepts, so a full-length response of the declared size always fails to
parse; the reset-telemetry catalog entries share the same mismatch,
while the watchdog-period entry declares the 2 bytes its parser
requires. -/
theorem claim_c2_catalog_decoder_mismatch :
    last_error.command.2 = 4 ∧
    last_error.command.1 = ⟨0x03, [0x00]⟩ ∧
    last_error.parse (List.replicate last_error.command.2 0) =
      Except.error (CounterError.parsingFailure lastErrorSource) ∧
    (ResetTelemetry.command ResetTelemetry.Typ.brownOut).2 = 4 ∧
    ResetTelemetry.parse
        (List.replicate (ResetTelemetry.command
          ResetTelemetry.Typ.brownOut).2 0) =
      Except.error (CounterError.parsingFailure resetTelemetrySource) ∧
    get_comms_watchdog_period.command.2 = 2 :=
  ⟨rfl, rfl, rfl, rfl, rfl, rfl⟩

/-- Claim C3: on every 2-byte response, `last_error::parse` succeeds
and decodes the second byte via `ErrorCode::from_u8`, which maps 0x00,
0x01, 0x02, 0x03 to the named codes and every other byte value to
`UnknownError`. -/
theorem claim_c3_last_error_decoding (b0 b1 : Nat) :
    last_error.parse [b0, b1] = Except.ok (ErrorCode.from_u8 b1) ∧
    ErrorCode.from_u8 0x00 = ErrorCode.none ∧
    ErrorCode.from_u8 0x01 = ErrorCode.unknownCommand ∧
    ErrorCode.from_u8 0x02 = ErrorCode.resetOccurred ∧
    ErrorCode.from_u8 0x03 = ErrorCode.commandError ∧
    (4 ≤ b1 → ErrorCode.from_u8 b1 = ErrorCode.unknownError) := by
  refine ⟨rfl, rfl, rfl, rfl, rfl, ?_⟩
  intro h
  match b1, h with
  | n + 4, _ => rfl

/-- Witness for C3 at the concrete byte 0x07. -/
theorem claim_c3_last_error_decoding_witness :
    last_error.parse [0x00, 0x07] = Except.ok ErrorCode.unknownError := by
  have h := claim_c3_last_error_decoding 0x00 0x07
  rw [h.1, h.2.2.2.2.2 (by decide)]

/-- Claim C4: on every response whose length differs from 2,
`last_error::parse`, `get_comms_watchdog_period::parse` and
`telemetry::reset::parse` return a `ParsingFailure` naming their
respective sources and never a partial value. -/
theorem claim_c4_length_mismatch (data : List Nat)
    (h : data.length ≠ 2) :
    last_error.parse data =
      Except.error (CounterError.parsingFailure lastErrorSource) ∧
    get_comms_watchdog_period.parse data =
      Except.error (CounterError.parsingFailure commsWatchdogSource) ∧
    ResetTelemetry.parse data =
      Except.error (CounterError.parsingFailure resetTelemetrySource) := by
  refine ⟨?_, ?_, ?_⟩ <;>
    simp [last_error.parse, get_comms_watchdog_period.parse,
      ResetTelemetry.parse, h]

/-- Witness for C4 at the empty response. -/
theorem claim_c4_length_mismatch_witness :
    ([] : List Nat).length ≠ 2 ∧
    (last_error.parse [] =
      Except.error (CounterError.parsingFailure lastErrorSource) ∧
    get_comms_watchdog_period.parse [] =
      Except.error (CounterError.parsingFailure commsWatchdogSource) ∧
    ResetTelemetry.parse [] =
      Except.error (CounterError.parsingFailure resetTelemetrySource)) :=
  ⟨by decide, claim_c4_length_mismatch [] (by decide)⟩

/-- Claim C5: decoding a 2-byte response that carries `raw` as a
big-endian unsigned 16-bit sample yields `scale * raw + offset` with
the channel's fixed coefficients, for every channel and every 16-bit
`raw`. -/
theorem claim_c5_telemetry_round_trip (telem_type : Telemetry.Typ)
    (raw : Nat) (h : raw < 65536) :
    Telemetry.parse [raw / 256, raw % 256] telem_type =
      Except.ok (Telemetry.scale telem_type * (raw : ℚ) +
        Telemetry.offset telem_type) := by
  have hsample : ((raw / 256 : Nat) : ℚ) * 256 + ((raw % 256 : Nat) : ℚ) =
      (raw : ℚ) := by
    calc ((raw / 256 : Nat) : ℚ) * 256 + ((raw % 256 : Nat) : ℚ)
        = (((raw / 256) * 256 + raw % 256 : Nat) : ℚ) := by push_cast; ring
      _ = (raw : ℚ) := by norm_cast; omega
  have hadc : Telemetry.get_adc_result [raw / 256, raw % 256] =
      Except.ok (raw : ℚ) := by
    rw [show Telemetry.get_adc_result [raw / 256, raw % 256] =
      Except.ok (((raw / 256 : Nat) : ℚ) * 256 + ((raw % 256 : Nat) : ℚ))
      from rfl, hsample]
  cases telem_type <;>
    simp only [Telemetry.parse, hadc, Except.map, Telemetry.scale,
      Telemetry.offset, sub_eq_add_neg]

/-- Witness for C5: Voltage channel at raw sample 1000. -/
theorem claim_c5_telemetry_round_trip_witness :
    1000 < 65536 ∧
    Telemetry.parse [1000 / 256, 1000 % 256] Telemetry.Typ.voltage =
      Except.ok (Telemetry.scale Telemetry.Typ.voltage * (1000 : ℚ) +
        Telemetry.offset Telemetry.Typ.voltage) :=
  ⟨by decide, claim_c5_telemetry_round_trip Telemetry.Typ.voltage 1000
    (by decide)⟩

/-- Claim C6: the traces of the eight other bus operations each begin
with the 60ms `INTER_COMMAND_DELAY` sleep before any bus event, but the
trace of `get_radiation_count` performs its transfer with no preceding
sleep — refuting the claim that every bus-transacting operation first
waits the settle delay. -/
theorem claim_c6_settle_delay (tt : Telemetry.Typ)
    (rt : ResetTelemetry.Typ) (period cmd : Nat) (data : List Nat) :
    delayObserved Trace.get_last_error = true ∧
    delayObserved Trace.manual_reset = true ∧
    delayObserved Trace.reset_comms_watchdog = true ∧
    delayObserved (Trace.get_telemetry tt) = true ∧
    delayObserved (Trace.get_reset_telemetry rt) = true ∧
    delayObserved (Trace.set_comms_watchdog_period period) = true ∧
    delayObserved Trace.get_comms_watchdog_period = true ∧
    delayObserved (Trace.raw_command cmd data) = true ∧
    delayObserved Trace.get_radiation_count = false :=
  ⟨rfl, rfl, rfl, rfl, rfl, rfl, rfl, rfl, rfl⟩

/-- Claim C7: for every period byte, including values outside 1..90,
`set_comms_watchdog_period::command` is exactly opcode 0x21 with
payload `[period]` (no driver-side range validation), and the operation
returns `Ok(())` whenever the bus write succeeds and the transport
error otherwise. -/
theorem claim_c7_watchdog_period_as_is (period : Nat)
    (st : RadiationCounter) (k : Nat) :
    set_comms_watchdog_period.command period = ⟨0x21, [period]⟩ ∧
    (Ops.set_comms_watchdog_period st period (Except.ok ())).1 =
      Except.ok () ∧
    (Ops.set_comms_watchdog_period st period (Except.error k)).1 =
      Except.error (CounterError.i2cError k) :=
  ⟨rfl, rfl, rfl⟩

/-- Claim C8: every device-controller operation leaves the controller
state (the cached `power_status` and the aggregator component)
unchanged — in particular when the bus transaction or the parse fails —
and `set_power_status` is the only state-changing call. -/
theorem claim_c8_atomicity_on_failure (st : RadiationCounter)
    (bus : BusResult) (wr : Except Nat Unit) (tt : Telemetry.Typ)
    (rt : ResetTelemetry.Typ) (p c now : Nat) (d : List Nat) :
    (Ops.get_last_error st bus).2 = st ∧
    (Ops.manual_reset st wr).2 = st ∧
    (Ops.reset_comms_watchdog st wr).2 = st ∧
    (Ops.get_telemetry st tt bus).2 = st ∧
    (Ops.get_reset_telemetry st rt bus).2 = st ∧
    (Ops.set_comms_watchdog_period st p wr).2 = st ∧
    (Ops.get_comms_watchdog_period st bus).2 = st ∧
    (Ops.raw_command st c d wr).2 = st ∧
    (Ops.get_radiation_count st now bus).2 = st :=
  ⟨rfl, rfl, rfl, rfl, rfl, rfl, rfl, rfl, rfl⟩

/-- Claim C9: `set_power_status` always succeeds and caches the flag,
`get_power_status` returns the most recently set value with no bus
transaction (its trace is empty), and a freshly constructed
`RadiationCounter` reports power status `true`. -/
theorem claim_c9_power_cache_round_trip (s : Bool)
    (st : RadiationCounter) (n : Nat) :
    (Ops.set_power_status st s).1 = Except.ok () ∧
    Ops.get_power_status (Ops.set_power_status st s).2 = Except.ok s ∧
    Ops.get_power_status (RadiationCounter.new n) = Except.ok true ∧
    Trace.set_power_status = ([] : List Event) ∧
    Trace.get_power_status = ([] : List Event) :=
  ⟨rfl, rfl, rfl, rfl, rfl⟩

/-- Claim C10: `get_radiation_count` requests a 2-byte transfer of the
0x01 command and, on transport success, returns `(now, count[0])` with
no length validation: any successful response with at least one byte
yields its first byte, and a successful zero-length response makes the
unguarded indexing panic rather than produce a driver error. -/
theorem claim_c10_unguarded_index (st : RadiationCounter)
    (now b e : Nat) (rest : List Nat) :
    Ops.count_request = ⟨0x01, []⟩ ∧
    Trace.get_radiation_count = [Event.transfer Ops.count_request 2 3] ∧
    (Ops.get_radiation_count st now (BusResult.ok (b :: rest))).1 =
      Ops.CountOutcome.ok now b ∧
    (Ops.get_radiation_count st now (BusResult.ok [])).1 =
      Ops.CountOutcome.panic ∧
    (Ops.get_radiation_count st now (BusResult.ioErr e)).1 =
      Ops.CountOutcome.err (CounterError.i2cError e) ∧
    (∀ err : CounterError,
      (Ops.get_radiation_count st now (BusResult.ok [])).1 ≠
        Ops.CountOutcome.err err) := by
  refine ⟨rfl, rfl, rfl, rfl, rfl, ?_⟩
  intro err hcontra
  exact Ops.CountOutcome.noConfusion hcontra

/-- Witness for C10: a concrete empty response panics and is not the
i2c driver error. -/
theorem claim_c10_unguarded_index_witness :
    (Ops.get_radiation_count (RadiationCounter.new 3) 5
      (BusResult.ok [])).1 ≠
      Ops.CountOutcome.err (CounterError.i2cError 0) :=
  (claim_c10_unguarded_index (RadiationCounter.new 3) 5 7 0
    []).2.2.2.2.2 (CounterError.i2cError 0)

end RadCounter
